import Mathlib

/-!
Verification development for the LearnStackHub repository (tutorial data
modules plus the AdSense display component).

The tutorial data modules are JavaScript files each exporting one or more
plain object literals.  Only the shape of those objects (which top-level
fields they define) is computational; the markdown bodies are opaque text.
Each exported object is embedded below as a `TutorialModule` recording the
JavaScript constant name, the `id` field value, and the ordered list of
top-level field keys exactly as written in the source file.

The AdSense component (`src/components/AdSense.js`, a React function
component) is embedded as a small state machine: its two `useState`
booleans, the mount-time push effect, the `checkAdStatus` routine driven by
the `data-adsbygoogle-status` DOM attribute, the 500 ms iframe-height
re-check, the 5 second fallback timeout, and the render function.
-/

/-- One exported tutorial data object: the JavaScript constant name, the
value of its `id` field, and the ordered list of its top-level object keys
as they appear in the source file. -/
structure TutorialModule where
  jsName : String
  idField : String
  keys : List String
deriving DecidableEq

/-- Field keys of every Maven tutorial module, as written in the source. -/
def mavenKeys : List String :=
  ["id", "title", "description", "courseTitle", "sectionTitle", "content"]

/-- Field keys of every Spring tutorial module, as written in the source. -/
def springKeys : List String :=
  ["id", "title", "description", "content", "code", "practiceQuestions"]

/- Maven course modules (src/data/maven). -/

def mavenIntroduction : TutorialModule :=
  ⟨"mavenIntroduction", "maven-introduction", mavenKeys⟩

def mavenWhy : TutorialModule :=
  ⟨"mavenWhy", "maven-why", mavenKeys⟩

def mavenVsGradle : TutorialModule :=
  ⟨"mavenVsGradle", "maven-vs-gradle", mavenKeys⟩

def mavenInstallation : TutorialModule :=
  ⟨"mavenInstallation", "maven-installation", mavenKeys⟩

def mavenCreateProject : TutorialModule :=
  ⟨"mavenCreateProject", "maven-create-project", mavenKeys⟩

def mavenProjectStructure : TutorialModule :=
  ⟨"mavenProjectStructure", "maven-project-structure", mavenKeys⟩

def mavenPomXml : TutorialModule :=
  ⟨"mavenPomXml", "maven-pom-xml", mavenKeys⟩

def mavenDependencyManagement : TutorialModule :=
  ⟨"mavenDependencyManagement", "maven-dependency-management", mavenKeys⟩

def mavenRepositories : TutorialModule :=
  ⟨"mavenRepositories", "maven-repositories", mavenKeys⟩

def mavenCommands : TutorialModule :=
  ⟨"mavenCommands", "maven-commands", mavenKeys⟩

def mavenPlugins : TutorialModule :=
  ⟨"mavenPlugins", "maven-plugins", mavenKeys⟩

def mavenMultiModule : TutorialModule :=
  ⟨"mavenMultiModule", "maven-multi-module", mavenKeys⟩

def mavenSpringBoot : TutorialModule :=
  ⟨"mavenSpringBoot", "maven-spring-boot", mavenKeys⟩

def mavenCommonErrors : TutorialModule :=
  ⟨"mavenCommonErrors", "maven-common-errors", mavenKeys⟩

def mavenBestPractices : TutorialModule :=
  ⟨"mavenBestPractices", "maven-best-practices", mavenKeys⟩

/- Spring course modules (src/data/spring). -/

def springIntroduction : TutorialModule :=
  ⟨"springIntroduction", "spring-introduction", springKeys⟩

def springIOC : TutorialModule :=
  ⟨"springIOC", "spring-ioc", springKeys⟩

def springDI : TutorialModule :=
  ⟨"springDI", "spring-di", springKeys⟩

def springBean : TutorialModule :=
  ⟨"springBean", "spring-bean", springKeys⟩

def springApplicationContext : TutorialModule :=
  ⟨"springApplicationContext", "spring-applicationcontext", springKeys⟩

def springConfigurationAnnotation : TutorialModule :=
  ⟨"springConfigurationAnnotation", "spring-configuration-annotation", springKeys⟩

def springConfigurationXML : TutorialModule :=
  ⟨"springConfigurationXML", "spring-configuration-xml", springKeys⟩

def springAOPIntroduction : TutorialModule :=
  ⟨"springAOPIntroduction", "spring-aop-introduction", springKeys⟩

def springAOPAdvancedPointcuts : TutorialModule :=
  ⟨"springAOPAdvancedPointcuts", "spring-aop-advanced-pointcuts", springKeys⟩

def springAOPAspectOrdering : TutorialModule :=
  ⟨"springAOPAspectOrdering", "spring-aop-aspect-ordering", springKeys⟩

def springAOPCustomAnnotations : TutorialModule :=
  ⟨"springAOPCustomAnnotations", "spring-aop-custom-annotations", springKeys⟩

def springAOPWithSpringBoot : TutorialModule :=
  ⟨"springAOPWithSpringBoot", "spring-aop-with-spring-boot", springKeys⟩

def springDataIntroduction : TutorialModule :=
  ⟨"springDataIntroduction", "spring-data-introduction", springKeys⟩

def springDataRepositoryArchitecture : TutorialModule :=
  ⟨"springDataRepositoryArchitecture", "spring-data-repository-architecture", springKeys⟩

def springDataCustomQueries : TutorialModule :=
  ⟨"springDataCustomQueries", "spring-data-custom-queries", springKeys⟩

def springJDBCTemplate : TutorialModule :=
  ⟨"springJDBCTemplate", "spring-jdbc-template", springKeys⟩

def springMVCController : TutorialModule :=
  ⟨"springMVCController", "spring-mvc-controller", springKeys⟩

def springMVCDispatcherServlet : TutorialModule :=
  ⟨"springMVCDispatcherServlet", "spring-mvc-dispatcherservlet", springKeys⟩

def springMVCModelAndView : TutorialModule :=
  ⟨"springMVCModelAndView", "spring-mvc-modelandview", springKeys⟩

def springMVCViewResolver : TutorialModule :=
  ⟨"springMVCViewResolver", "spring-mvc-viewresolver", springKeys⟩

def springProjectLoginStudentCRUD : TutorialModule :=
  ⟨"springProjectLoginStudentCRUD", "spring-project-login-student-crud", springKeys⟩

/-- All Maven tutorial modules. -/
def mavenTutorialModules : List TutorialModule :=
  [mavenIntroduction, mavenWhy, mavenVsGradle, mavenInstallation,
   mavenCreateProject, mavenProjectStructure, mavenPomXml,
   mavenDependencyManagement, mavenRepositories, mavenCommands,
   mavenPlugins, mavenMultiModule, mavenSpringBoot, mavenCommonErrors,
   mavenBestPractices]

/-- All Spring tutorial modules. -/
def springTutorialModules : List TutorialModule :=
  [springIntroduction, springIOC, springDI, springBean,
   springApplicationContext, springConfigurationAnnotation,
   springConfigurationXML, springAOPIntroduction,
   springAOPAdvancedPointcuts, springAOPAspectOrdering,
   springAOPCustomAnnotations, springAOPWithSpringBoot,
   springDataIntroduction, springDataRepositoryArchitecture,
   springDataCustomQueries, springJDBCTemplate, springMVCController,
   springMVCDispatcherServlet, springMVCModelAndView,
   springMVCViewResolver, springProjectLoginStudentCRUD]

/-- Every exported tutorial data object in the repository. -/
def tutorialModules : List TutorialModule :=
  mavenTutorialModules ++ springTutorialModules

/-- The six fields the specification names for a content record. -/
def specContentRecordKeys : List String :=
  ["id", "title", "description", "content", "code", "practiceQuestions"]

/-- Whether a module defines every one of the given field keys. -/
def hasAllKeys (m : TutorialModule) (ks : List String) : Bool :=
  ks.all fun k => m.keys.contains k

/-!
AdSense component embedding (src/components/AdSense.js).

The component holds two `useState` booleans, `adLoaded` and `adFailed`,
both initialised to `false`.  A first effect (empty dependency list, so it
runs exactly once per mount) pushes to `window.adsbygoogle` when the ad
element exists, `window.adsbygoogle` is defined and the element does not
yet carry the `data-adsbygoogle-status` attribute; a thrown exception is
caught and sets `adFailed`.  A second effect (dependencies
`[adLoaded, adFailed]`) returns early when the element is missing or
AdSense is unconfigured; otherwise it runs `checkAdStatus` immediately,
registers a `MutationObserver` filtered to the single attribute
`data-adsbygoogle-status`, and arms a 5 second fallback timeout that sets
`adFailed` when neither flag is set.  Because that effect re-runs (and
re-arms a fresh timeout) on every flag change, a timeout that actually
fires always observes flags equal to those captured when it was armed;
the machine below therefore lets the timeout event read the current flags.
-/

/-- The two `useState` booleans of the AdSense component. -/
structure AdState where
  adLoaded : Bool
  adFailed : Bool
deriving DecidableEq

/-- Both flags start `false` (`useState(false)` twice). -/
def initialAdState : AdState := ⟨false, false⟩

/-- The single DOM attribute the component inspects. -/
def adStatusAttribute : String := "data-adsbygoogle-status"

/-- The `attributeFilter` passed to `observer.observe`. -/
def observerAttributeFilter : List String := [adStatusAttribute]

/-- Environment seen by the mount-time push effect: whether the `ins`
element is mounted, whether `window.adsbygoogle` is defined, whether the
element already carries the `data-adsbygoogle-status` attribute, and
whether the push call throws. -/
structure MountEnv where
  adElementExists : Bool
  adsbygoogleDefined : Bool
  hasStatusAttr : Bool
  pushThrows : Bool
deriving DecidableEq

/-- Result of the push effect: how many pushes to `window.adsbygoogle`
were made and the component state afterwards.  The function is total: a
thrown push is caught by the `try`/`catch` and turned into
`adFailed := true` instead of propagating. -/
structure MountResult where
  pushCount : Nat
  state : AdState
deriving DecidableEq

/-- The first `useEffect` body (AdSense.js lines 18-27). -/
def mountEffect (env : MountEnv) (s : AdState) : MountResult :=
  if env.adElementExists && env.adsbygoogleDefined && !env.hasStatusAttr then
    if env.pushThrows then ⟨1, { s with adFailed := true }⟩
    else ⟨1, s⟩
  else ⟨0, s⟩

/-- `checkAdStatus` (AdSense.js lines 33-50) acting on the attribute value
read from the element (`none` when the element or the attribute is
missing).  Returns the updated flags and whether the 500 ms iframe-height
re-check was scheduled (only a `done` status schedules it). -/
def checkAdStatus (status : Option String) (s : AdState) : AdState × Bool :=
  if status = some "done" then
    ({ s with adLoaded := true }, true)
  else if status = some "error" ∨ status = some "unfilled" then
    ({ s with adFailed := true }, false)
  else
    (s, false)

/-- The 500 ms re-check scheduled by a `done` status (AdSense.js lines
37-45): `iframeHeight` is the `offsetHeight` of the slot's iframe, `none`
when no iframe is found.  A positive height re-marks the ad loaded,
anything else marks it failed. -/
def heightCheck (iframeHeight : Option Nat) (s : AdState) : AdState :=
  match iframeHeight with
  | some h => if h > 0 then { s with adLoaded := true } else { s with adFailed := true }
  | none => { s with adFailed := true }

/-- A DOM element as the component sees it: its attribute list and the
`offsetHeight` of its rendered iframe, when one exists. -/
structure DomElement where
  attrs : List (String × String)
  iframeHeight : Option Nat

/-- `element.getAttribute(name)`. -/
def DomElement.getAttribute (e : DomElement) (name : String) : Option String :=
  (e.attrs.find? fun p => p.1 == name).map fun p => p.2

/-- `checkAdStatus` as invoked by the component: it reads exactly the
`data-adsbygoogle-status` attribute of the element. -/
def checkAdStatusOnElement (e : DomElement) (s : AdState) : AdState × Bool :=
  checkAdStatus (e.getAttribute adStatusAttribute) s

/-- The rendered ad container; `adLoaded` selects the
`ad-loaded`/`ad-loading` class and the `minHeight` style. -/
structure AdContainer where
  adLoaded : Bool
deriving DecidableEq

/-- The component's return value (AdSense.js lines 77-115): `none` when it
renders nothing, `some` the container otherwise.  `configured` is the
value of `isAdSenseConfigured()`. -/
def renderAdSense (configured : Bool) (s : AdState) : Option AdContainer :=
  if !configured then none
  else if s.adFailed then none
  else some ⟨s.adLoaded⟩

/-- Whole-program state: the component lifecycle flags, the push counter,
and the tutorial data records as loaded at module initialisation.  The
tutorial records live in the state so that invariance under every
operation of the repository can be stated. -/
structure ProgState where
  mounted : Bool
  monitoring : Bool
  heightCheckPending : Bool
  pushes : Nat
  ad : AdState
  tutorials : List TutorialModule
deriving DecidableEq

/-- State at module initialisation, before the component mounts. -/
def initialProgState : ProgState :=
  ⟨false, false, false, 0, initialAdState, tutorialModules⟩

/-- The events the AdSense source reacts to: mounting (which runs the push
effect and, when the element exists and AdSense is configured, starts the
monitoring effect with an immediate `checkAdStatus`), a mutation of the
observed attribute, the 500 ms iframe-height re-check firing, and the
5 second fallback timeout firing. -/
inductive AdEvent where
  | mount (env : MountEnv) (status : Option String)
  | statusChange (status : Option String)
  | heightCheckFire (iframeHeight : Option Nat)
  | timeoutFire

/-- One transition of the component, with `cfg` the constant value of
`isAdSenseConfigured()`.  Events that the source cannot deliver in the
current state (a second mount, an observer callback without a registered
observer, an unscheduled height check, a timeout when a flag is already
set) leave the state unchanged. -/
def step (cfg : Bool) (s : ProgState) (e : AdEvent) : ProgState :=
  match e with
  | .mount env status =>
    if s.mounted then s
    else if env.adElementExists && cfg then
      { s with mounted := true, monitoring := true,
               heightCheckPending := (checkAdStatus status (mountEffect env s.ad).state).2,
               pushes := s.pushes + (mountEffect env s.ad).pushCount,
               ad := (checkAdStatus status (mountEffect env s.ad).state).1 }
    else
      { s with mounted := true,
               pushes := s.pushes + (mountEffect env s.ad).pushCount,
               ad := (mountEffect env s.ad).state }
  | .statusChange status =>
    if s.monitoring then
      { s with ad := (checkAdStatus status s.ad).1,
               heightCheckPending := s.heightCheckPending || (checkAdStatus status s.ad).2 }
    else s
  | .heightCheckFire h =>
    if s.monitoring && s.heightCheckPending then
      { s with ad := heightCheck h s.ad, heightCheckPending := false }
    else s
  | .timeoutFire =>
    if s.monitoring && !s.ad.adLoaded && !s.ad.adFailed then
      { s with ad := { s.ad with adFailed := true } }
    else s

/-- Run a sequence of events from a state. -/
def run (cfg : Bool) (s : ProgState) : List AdEvent → ProgState
  | [] => s
  | e :: es => run cfg (step cfg s e) es

/-!
Helper lemmas: the failed flag is never reset by any routine of the
component, pushes are bounded by the once-per-mount effect, and the
tutorial records are untouched by every transition.
-/

theorem mountEffect_preserves_adFailed (env : MountEnv) (a : AdState)
    (h : a.adFailed = true) : (mountEffect env a).state.adFailed = true := by
  unfold mountEffect
  split
  · split
    · simp
    · simpa using h
  · simpa using h

theorem checkAdStatus_preserves_adFailed (st : Option String) (a : AdState)
    (h : a.adFailed = true) : (checkAdStatus st a).1.adFailed = true := by
  unfold checkAdStatus
  split
  · simpa using h
  · split
    · simp
    · simpa using h

theorem heightCheck_preserves_adFailed (ih : Option Nat) (a : AdState)
    (h : a.adFailed = true) : (heightCheck ih a).adFailed = true := by
  cases ih with
  | none => simp [heightCheck]
  | some n =>
    simp only [heightCheck]
    split
    · simpa using h
    · simp

theorem step_preserves_adFailed (cfg : Bool) (s : ProgState) (e : AdEvent)
    (h : s.ad.adFailed = true) : (step cfg s e).ad.adFailed = true := by
  cases e with
  | mount env status =>
    simp only [step]
    split
    · exact h
    · split
      · exact checkAdStatus_preserves_adFailed _ _
          (mountEffect_preserves_adFailed _ _ h)
      · exact mountEffect_preserves_adFailed _ _ h
  | statusChange status =>
    simp only [step]
    split
    · exact checkAdStatus_preserves_adFailed _ _ h
    · exact h
  | heightCheckFire ih =>
    simp only [step]
    split
    · exact heightCheck_preserves_adFailed _ _ h
    · exact h
  | timeoutFire =>
    simp only [step]
    split
    · simp
    · exact h

theorem run_preserves_adFailed (cfg : Bool) (s : ProgState)
    (es : List AdEvent) (h : s.ad.adFailed = true) :
    (run cfg s es).ad.adFailed = true := by
  induction es generalizing s with
  | nil => exact h
  | cons e es ih => exact ih _ (step_preserves_adFailed cfg s e h)

theorem renderAdSense_none_of_failed (c : Bool) (a : AdState)
    (h : a.adFailed = true) : renderAdSense c a = none := by
  unfold renderAdSense
  split
  · rfl
  · simp [h]

theorem step_preserves_tutorials (cfg : Bool) (s : ProgState) (e : AdEvent) :
    (step cfg s e).tutorials = s.tutorials := by
  cases e <;> simp only [step] <;> (repeat' split) <;> rfl

theorem run_preserves_tutorials (cfg : Bool) (s : ProgState)
    (es : List AdEvent) : (run cfg s es).tutorials = s.tutorials := by
  induction es generalizing s with
  | nil => rfl
  | cons e es ih => rw [run, ih, step_preserves_tutorials]

theorem mountEffect_pushCount_le_one (env : MountEnv) (a : AdState) :
    (mountEffect env a).pushCount ≤ 1 := by
  unfold mountEffect
  split
  · split <;> simp
  · simp

theorem step_pushes_invariant (cfg : Bool) (s : ProgState) (e : AdEvent)
    (h0 : s.mounted = false → s.pushes = 0) (h1 : s.pushes ≤ 1) :
    ((step cfg s e).mounted = false → (step cfg s e).pushes = 0) ∧
    (step cfg s e).pushes ≤ 1 := by
  cases e with
  | mount env status =>
    simp only [step]
    split
    · exact ⟨h0, h1⟩
    · rename_i hm
      have hz : s.pushes = 0 := h0 (by simpa using hm)
      split
      · exact ⟨by simp, by simpa [hz] using mountEffect_pushCount_le_one env s.ad⟩
      · exact ⟨by simp, by simpa [hz] using mountEffect_pushCount_le_one env s.ad⟩
  | statusChange status =>
    simp only [step]
    split
    · exact ⟨fun h => h0 h, h1⟩
    · exact ⟨h0, h1⟩
  | heightCheckFire ih =>
    simp only [step]
    split
    · exact ⟨fun h => h0 h, h1⟩
    · exact ⟨h0, h1⟩
  | timeoutFire =>
    simp only [step]
    split
    · exact ⟨fun h => h0 h, h1⟩
    · exact ⟨h0, h1⟩

theorem run_pushes_le_one (cfg : Bool) (s : ProgState) (es : List AdEvent)
    (h0 : s.mounted = false → s.pushes = 0) (h1 : s.pushes ≤ 1) :
    (run cfg s es).pushes ≤ 1 := by
  induction es generalizing s with
  | nil => exact h1
  | cons e es ih =>
    have h := step_pushes_invariant cfg s e h0 h1
    exact ih _ h.1 h.2

/-!
Claim theorems.
-/

/-- C1, counterexample: `mavenIntroduction` is an exported tutorial data
module and lacks the `code` and `practiceQuestions` fields, so the claim
that every tutorial data module carries the six fields
`id, title, description, content, code, practiceQuestions` is false. -/
theorem maven_module_lacks_spec_fields :
    mavenIntroduction ∈ tutorialModules ∧
    mavenIntroduction.keys.contains "code" = false ∧
    mavenIntroduction.keys.contains "practiceQuestions" = false ∧
    ¬ ∀ m ∈ tutorialModules, hasAllKeys m specContentRecordKeys = true := by
  refine ⟨by decide, rfl, rfl, fun h => ?_⟩
  have hm := h mavenIntroduction (by decide)
  exact absurd hm (by decide)

/-- C1, amended: every tutorial data module carries the fields
`id`, `title`, `description` and `content`; the Spring modules carry all
six spec fields `id, title, description, content, code,
practiceQuestions`; the Maven modules instead carry exactly
`id, title, description, courseTitle, sectionTitle, content`, hence no
`code` and no `practiceQuestions` field. -/
theorem tutorial_module_fields :
    (tutorialModules.all fun m =>
      hasAllKeys m ["id", "title", "description", "content"]) = true ∧
    (springTutorialModules.all fun m =>
      hasAllKeys m specContentRecordKeys) = true ∧
    (mavenTutorialModules.all fun m => m.keys == mavenKeys) = true ∧
    (mavenTutorialModules.all fun m =>
      !(m.keys.contains "code") && !(m.keys.contains "practiceQuestions")) = true :=
  ⟨rfl, rfl, rfl, rfl⟩

/-- C2: a rendering of the AdSense component yields nothing exactly when
AdSense is unconfigured or the failed flag is set, and yields the ad
container (with the `adLoaded` styling flag) in every other case. -/
theorem adsense_render_hidden_iff (configured : Bool) (s : AdState) :
    (renderAdSense configured s = none ↔
      (configured = false ∨ s.adFailed = true)) ∧
    (renderAdSense configured s = some ⟨s.adLoaded⟩ ↔
      (configured = true ∧ s.adFailed = false)) := by
  rcases s with ⟨l, f⟩
  cases configured <;> cases f <;> simp [renderAdSense]

/-- C3: when the 5 second fallback timeout fires while the monitoring
effect is active and the ad is neither marked loaded nor failed, the
component marks itself failed, and after any further events it still
carries the failed flag and renders nothing. -/
theorem adsense_timeout_fallback (cfg : Bool) (s : ProgState)
    (hmon : s.monitoring = true) (hl : s.ad.adLoaded = false)
    (hf : s.ad.adFailed = false) :
    (step cfg s .timeoutFire).ad.adFailed = true ∧
    ∀ es c, renderAdSense c (run cfg (step cfg s .timeoutFire) es).ad = none := by
  have h1 : (step cfg s .timeoutFire).ad.adFailed = true := by
    simp [step, hmon, hl, hf]
  exact ⟨h1, fun es c =>
    renderAdSense_none_of_failed c _ (run_preserves_adFailed cfg _ es h1)⟩

/-- C3, witness: a mounted monitoring state with both flags clear, hit by
the timeout event. -/
theorem adsense_timeout_fallback_witness :
    (step true ⟨true, true, false, 0, ⟨false, false⟩, []⟩ .timeoutFire).ad.adFailed = true ∧
    ∀ es c, renderAdSense c
      (run true (step true ⟨true, true, false, 0, ⟨false, false⟩, []⟩ .timeoutFire) es).ad = none :=
  adsense_timeout_fallback true ⟨true, true, false, 0, ⟨false, false⟩, []⟩ rfl rfl rfl

/-- C4: the MutationObserver is registered with an attribute filter that
contains exactly the attribute `data-adsbygoogle-status`, and the
load/fail decision depends on nothing else of the element: two elements
agreeing on that attribute get the same `checkAdStatus` result whatever
their other attributes, and the 500 ms re-check depends only on the
iframe height. -/
theorem adsense_observes_single_attribute (e1 e2 : DomElement) (s : AdState)
    (hattr : e1.getAttribute adStatusAttribute = e2.getAttribute adStatusAttribute) :
    observerAttributeFilter = ["data-adsbygoogle-status"] ∧
    checkAdStatusOnElement e1 s = checkAdStatusOnElement e2 s ∧
    (e1.iframeHeight = e2.iframeHeight →
      heightCheck e1.iframeHeight s = heightCheck e2.iframeHeight s) := by
  refine ⟨rfl, ?_, fun hh => by rw [hh]⟩
  unfold checkAdStatusOnElement
  rw [hattr]

/-- C4, witness: two elements with the same status attribute but different
other attributes and class lists. -/
theorem adsense_observes_single_attribute_witness :
    observerAttributeFilter = ["data-adsbygoogle-status"] ∧
    checkAdStatusOnElement ⟨[("class", "adsbygoogle"), ("data-adsbygoogle-status", "done")], some 3⟩ ⟨false, false⟩ =
      checkAdStatusOnElement ⟨[("data-adsbygoogle-status", "done"), ("data-ad-format", "auto")], some 3⟩ ⟨false, false⟩ ∧
    ((⟨[("class", "adsbygoogle"), ("data-adsbygoogle-status", "done")], some 3⟩ : DomElement).iframeHeight =
      (⟨[("data-adsbygoogle-status", "done"), ("data-ad-format", "auto")], some 3⟩ : DomElement).iframeHeight →
      heightCheck (⟨[("class", "adsbygoogle"), ("data-adsbygoogle-status", "done")], some 3⟩ : DomElement).iframeHeight ⟨false, false⟩ =
        heightCheck (⟨[("data-adsbygoogle-status", "done"), ("data-ad-format", "auto")], some 3⟩ : DomElement).iframeHeight ⟨false, false⟩) :=
  adsense_observes_single_attribute
    ⟨[("class", "adsbygoogle"), ("data-adsbygoogle-status", "done")], some 3⟩
    ⟨[("data-adsbygoogle-status", "done"), ("data-ad-format", "auto")], some 3⟩
    ⟨false, false⟩ rfl

/-- C5: no operation of the repository mutates a tutorial content record
after module initialisation: every transition leaves the tutorial records
of the program state untouched, so after any sequence of events they are
exactly the records authored in the data modules. -/
theorem tutorials_never_mutated (cfg : Bool) (s : ProgState)
    (es : List AdEvent) :
    (run cfg s es).tutorials = s.tutorials ∧
    (run cfg initialProgState es).tutorials = tutorialModules :=
  ⟨run_preserves_tutorials cfg s es,
    run_preserves_tutorials cfg initialProgState es⟩

/-- C6: the status value `done` marks the ad loaded and schedules the
500 ms re-check, which re-marks the ad loaded when the slot's iframe has
positive height and marks it failed otherwise (also when no iframe
exists); the values `error` and `unfilled` mark the ad failed; any other
value changes neither flag and schedules nothing. -/
theorem checkAdStatus_decision (s : AdState) (st : String) (n : Nat)
    (hd : st ≠ "done") (he : st ≠ "error") (hu : st ≠ "unfilled") :
    checkAdStatus (some "done") s = ({ s with adLoaded := true }, true) ∧
    checkAdStatus (some "error") s = ({ s with adFailed := true }, false) ∧
    checkAdStatus (some "unfilled") s = ({ s with adFailed := true }, false) ∧
    checkAdStatus (some st) s = (s, false) ∧
    heightCheck (some n) s =
      (if n > 0 then { s with adLoaded := true } else { s with adFailed := true }) ∧
    heightCheck none s = { s with adFailed := true } := by
  refine ⟨rfl, rfl, rfl, ?_, rfl, rfl⟩
  simp [checkAdStatus, hd, he, hu]

/-- C6, witness: the decision table evaluated at the status value
`pending` and iframe height 2. -/
theorem checkAdStatus_decision_witness :
    checkAdStatus (some "done") ⟨false, false⟩ = (⟨true, false⟩, true) ∧
    checkAdStatus (some "error") ⟨false, false⟩ = (⟨false, true⟩, false) ∧
    checkAdStatus (some "unfilled") ⟨false, false⟩ = (⟨false, true⟩, false) ∧
    checkAdStatus (some "pending") ⟨false, false⟩ = (⟨false, false⟩, false) ∧
    heightCheck (some 2) ⟨false, false⟩ =
      (if 2 > 0 then (⟨true, false⟩ : AdState) else ⟨false, true⟩) ∧
    heightCheck none ⟨false, false⟩ = ⟨false, true⟩ :=
  checkAdStatus_decision ⟨false, false⟩ "pending" 2
    (by decide) (by decide) (by decide)

/-- C7: across any execution from the initial state the component pushes
to `window.adsbygoogle` at most once; the mount effect pushes exactly when
the ad element exists, `window.adsbygoogle` is defined and the element
does not already carry the status attribute; and a throwing push is
caught, the effect returning normally with the failed flag set instead of
propagating the exception. -/
theorem adsense_push_at_most_once (cfg : Bool) (es : List AdEvent)
    (env : MountEnv) (a : AdState) :
    (run cfg initialProgState es).pushes ≤ 1 ∧
    ((mountEffect env a).pushCount = 1 ↔
      (env.adElementExists = true ∧ env.adsbygoogleDefined = true ∧
        env.hasStatusAttr = false)) ∧
    (mountEffect env a).state.adFailed =
      (a.adFailed || (env.adElementExists && env.adsbygoogleDefined &&
        !env.hasStatusAttr && env.pushThrows)) := by
  refine ⟨run_pushes_le_one cfg initialProgState es (fun _ => rfl)
    (Nat.zero_le 1), ?_, ?_⟩
  · rcases env with ⟨ee, ad, hs, pt⟩
    cases ee <;> cases ad <;> cases hs <;> cases pt <;> simp [mountEffect]
  · rcases env with ⟨ee, ad, hs, pt⟩
    rcases a with ⟨l, f⟩
    cases ee <;> cases ad <;> cases hs <;> cases pt <;> cases f <;>
      simp [mountEffect]

/-- C8: both state booleans start false and the failed flag is absorbing:
once `adFailed` is true it stays true across any further event or event
sequence, and the component never renders the ad container again. -/
theorem adsense_failed_absorbing (cfg : Bool) (s : ProgState) (e : AdEvent)
    (es : List AdEvent) (h : s.ad.adFailed = true) :
    initialAdState.adLoaded = false ∧ initialAdState.adFailed = false ∧
    (step cfg s e).ad.adFailed = true ∧
    (run cfg s es).ad.adFailed = true ∧
    ∀ c, renderAdSense c (run cfg s es).ad = none :=
  ⟨rfl, rfl, step_preserves_adFailed cfg s e h,
    run_preserves_adFailed cfg s es h,
    fun c => renderAdSense_none_of_failed c _ (run_preserves_adFailed cfg s es h)⟩

/-- C8, witness: a failed monitoring state hit by a `done` status change,
a timeout and a height check. -/
theorem adsense_failed_absorbing_witness :
    initialAdState.adLoaded = false ∧ initialAdState.adFailed = false ∧
    (step true ⟨true, true, false, 0, ⟨false, true⟩, []⟩
      (.statusChange (some "done"))).ad.adFailed = true ∧
    (run true ⟨true, true, false, 0, ⟨false, true⟩, []⟩
      [.timeoutFire, .heightCheckFire (some 4)]).ad.adFailed = true ∧
    ∀ c, renderAdSense c (run true ⟨true, true, false, 0, ⟨false, true⟩, []⟩
      [.timeoutFire, .heightCheckFire (some 4)]).ad = none :=
  adsense_failed_absorbing true ⟨true, true, false, 0, ⟨false, true⟩, []⟩
    (.statusChange (some "done")) [.timeoutFire, .heightCheckFire (some 4)] rfl

/-- C2, witness: the render decision evaluated with AdSense configured
and a clean state. -/
theorem adsense_render_hidden_iff_witness :
    (renderAdSense true ⟨true, false⟩ = none ↔
      (true = false ∨ (⟨true, false⟩ : AdState).adFailed = true)) ∧
    (renderAdSense true ⟨true, false⟩ = some ⟨(⟨true, false⟩ : AdState).adLoaded⟩ ↔
      (true = true ∧ (⟨true, false⟩ : AdState).adFailed = false)) :=
  adsense_render_hidden_iff true ⟨true, false⟩

/-- C7, witness: a trace that mounts with a successful push and the mount
effect evaluated in a throwing environment. -/
theorem adsense_push_at_most_once_witness :
    (run true initialProgState
      [.mount ⟨true, true, false, false⟩ none, .statusChange (some "done")]).pushes ≤ 1 ∧
    ((mountEffect ⟨true, true, false, true⟩ ⟨false, false⟩).pushCount = 1 ↔
      ((⟨true, true, false, true⟩ : MountEnv).adElementExists = true ∧
        (⟨true, true, false, true⟩ : MountEnv).adsbygoogleDefined = true ∧
        (⟨true, true, false, true⟩ : MountEnv).hasStatusAttr = false)) ∧
    (mountEffect ⟨true, true, false, true⟩ ⟨false, false⟩).state.adFailed =
      ((⟨false, false⟩ : AdState).adFailed ||
        ((⟨true, true, false, true⟩ : MountEnv).adElementExists &&
          (⟨true, true, false, true⟩ : MountEnv).adsbygoogleDefined &&
          !(⟨true, true, false, true⟩ : MountEnv).hasStatusAttr &&
          (⟨true, true, false, true⟩ : MountEnv).pushThrows)) :=
  adsense_push_at_most_once true
    [.mount ⟨true, true, false, false⟩ none, .statusChange (some "done")]
    ⟨true, true, false, true⟩ ⟨false, false⟩
